import Mathlib

/-!
Shallow embedding of the trade-escrow program
(programs/trade-escrow/src): config and escrow state, fee computation,
the stubbed signature verifier, and the lock / settle / refund /
pause / unpause / update_oracles instruction handlers, with the Anchor
account constraints modelled as explicit precondition checks and the
SPL token transfers modelled as explicit balance moves.

Machine integers are modelled as `Nat` (u64, u16, u128) and `Int` (i64),
with `% 2^w` inserted exactly where the source performs a wrapping cast
or an unchecked addition on a fixed-width type.
-/

namespace TradeEscrow

/-- Identities (Solana `Pubkey`) are abstracted as natural numbers. -/
abbrev Pubkey := Nat

/-- A 64-byte signature (`[u8; 64]`), as a list of byte values. -/
abbrev Sig := List Nat

/-- Messages are abstracted as lists of integer components.  The source
builds them with `format!`; `verify_signature` never inspects the
message, so only the components are recorded, not the byte encoding. -/
abbrev Message := List Int

def U8_MOD : Nat := 2 ^ 8

def U64_MOD : Nat := 2 ^ 64

def U128_MOD : Nat := 2 ^ 128

/-- `state/config.rs`: the `Config` account.  The `bump` PDA bookkeeping
byte is omitted (address derivation is outside the embedding). -/
structure Config where
  oracle_pubkeys : List Pubkey
  paused : Bool
  guardian : Pubkey
  admin : Pubkey
  fee_bps : Nat
  fee_recipient : Pubkey
deriving Repr, DecidableEq

/-- `Config::calculate_fee`:
`(amount as u128 * self.fee_bps as u128 / 10000) as u64`.
The product is taken modulo 2^128 (u128 arithmetic) and the final cast
truncates modulo 2^64. -/
def Config.calculate_fee (c : Config) (amount : Nat) : Nat :=
  (amount * c.fee_bps % U128_MOD / 10000) % U64_MOD

/-- `Config::is_oracle`: membership in the configured oracle key array. -/
def Config.is_oracle (c : Config) (pubkey : Pubkey) : Bool :=
  c.oracle_pubkeys.contains pubkey

/-- `state/escrow.rs`: the `Escrow` account.  The `bump` PDA bookkeeping
byte is omitted (it only feeds the signer-seed derivation). -/
structure Escrow where
  buyer : Pubkey
  seller : Pubkey
  asset_id : Nat
  amount : Nat
  deadline : Int
  settled : Bool
  nonce : Nat
deriving Repr, DecidableEq

/-- `Escrow::is_expired`: `Clock::get().unwrap().unix_timestamp > self.deadline`,
with the ambient clock passed explicitly as `now`. -/
def Escrow.is_expired (e : Escrow) (now : Int) : Bool :=
  now > e.deadline

/-- `Escrow::can_settle`: `!self.settled && !self.is_expired()`. -/
def Escrow.can_settle (e : Escrow) (now : Int) : Bool :=
  !e.settled && !(e.is_expired now)

/-- `Escrow::can_refund`: `!self.settled && self.is_expired()`. -/
def Escrow.can_refund (e : Escrow) (now : Int) : Bool :=
  !e.settled && e.is_expired now

/-- `errors.rs` (`TradeEscrowError`), extended with the two error cases
of the external SPL token program's transfer (source underflow,
destination overflow), which the handlers propagate via `?`. -/
inductive Err where
  | ContractPaused
  | InvalidDeadline
  | InvalidAskSignature
  | PriceExceedsMaximum
  | InsufficientFunds
  | CannotSettle
  | CannotRefund
  | InsufficientOracleSignatures
  | InvalidOracleSignatures
  | UnauthorizedGuardian
  | UnauthorizedAdmin
  | UnauthorizedRefund
  | InvalidSignatureFormat
  | SignatureVerificationFailed
  | TokenInsufficientFunds
  | TokenOverflow
deriving Repr, DecidableEq

/-- `utils.rs` `verify_signature`: the constructed ed25519 instruction is
unused; the function returns `Ok(false)` when every signature byte is 0
and `Ok(true)` otherwise, ignoring `message` and `pubkey`.  It never
returns an error, so it is modelled as a plain `Bool`. -/
def verify_signature (signature : Sig) (message : Message) (pubkey : Pubkey) : Bool :=
  if signature.all (fun b => b == 0) then false else true

/-- The external SPL token `transfer` (the `LedgerGateway` of the spec):
debit `amt` from `src` and credit it to `dst`, failing on insufficient
source balance or on u64 overflow of the destination balance. -/
def token_transfer (src dst amt : Nat) : Except Err (Nat × Nat) :=
  if amt > src then .error .TokenInsufficientFunds
  else if U64_MOD ≤ dst + amt then .error .TokenOverflow
  else .ok (src - amt, dst + amt)

/-- `lock.rs` lines 86-93: the ask message components
`(asset_id, seller, amount, deadline, nonce)`. -/
def ask_message (asset_id : Nat) (seller : Pubkey) (amount : Nat)
    (deadline : Int) (nonce : Nat) : Message :=
  [(asset_id : Int), (seller : Int), (amount : Int), deadline, (nonce : Int)]

/-- `settle.rs` lines 66-71: the settlement message components
`("settle", asset_id, buyer, escrow key)`.  The escrow account address is
not a stored field and `verify_signature` ignores the message, so only
the stored components are recorded. -/
def settlement_message (e : Escrow) : Message :=
  [(e.asset_id : Int), (e.buyer : Int)]

/-- `settle.rs` lines 73-81: the nested signature-counting loop.  Each
submitted signature increments the count once (the inner `break`) as
soon as it verifies against any of the configured oracle keys; no record
is kept of which key was matched.  The counter `valid_signatures` is a
`u8` (its type is forced by the event field `oracle_count: u8`,
lib.rs line 82), so the increment wraps modulo 2^8. -/
def count_valid_signatures (c : Config) (msg : Message) (sigs : List Sig) : Nat :=
  sigs.foldl
    (fun acc s =>
      if c.oracle_pubkeys.any (fun pk => verify_signature s msg pk) then (acc + 1) % U8_MOD
      else acc)
    0

/-- The accounts a `Settle` call touches: the escrow record, its vault
token balance, and the destination balances (the Anchor owner/mint
constraints identify the destinations with the seller and the
configured fee recipient). -/
structure SettleState where
  escrow : Escrow
  vault : Nat
  seller_balance : Nat
  fee_recipient_balance : Nat
deriving Repr, DecidableEq

/-- `settle.rs` `settle`, with the Anchor account constraint
`escrow.can_settle()` (error `CannotSettle`) checked first, then the
handler body: pause gate, signature-count gates, transfer of `amount`
to the seller, transfer of `fee` to the fee recipient when `fee > 0`,
and `settled := true`. -/
def settle (c : Config) (now : Int) (st : SettleState) (oracle_signatures : List Sig) :
    Except Err SettleState :=
  if st.escrow.can_settle now then
    if c.paused then .error .ContractPaused
    else if oracle_signatures.length < 2 then .error .InsufficientOracleSignatures
    else
      let valid_signatures :=
        count_valid_signatures c (settlement_message st.escrow) oracle_signatures
      if valid_signatures < 2 then .error .InvalidOracleSignatures
      else
        let fee := c.calculate_fee st.escrow.amount
        let seller_amount := st.escrow.amount
        match token_transfer st.vault st.seller_balance seller_amount with
        | .error e => .error e
        | .ok (v1, s1) =>
          if fee > 0 then
            match token_transfer v1 st.fee_recipient_balance fee with
            | .error e => .error e
            | .ok p =>
              .ok { escrow := { st.escrow with settled := true }, vault := p.1,
                    seller_balance := s1, fee_recipient_balance := p.2 }
          else
            .ok { escrow := { st.escrow with settled := true }, vault := v1,
                  seller_balance := s1, fee_recipient_balance := st.fee_recipient_balance }
  else .error .CannotSettle

/-- The accounts a `Refund` call touches: the escrow record, its vault
token balance, and the buyer's token balance (identified with the buyer
by the Anchor owner constraint). -/
structure RefundState where
  escrow : Escrow
  vault : Nat
  buyer_balance : Nat
deriving Repr, DecidableEq

/-- `refund.rs` `refund`, with the Anchor account constraints
`escrow.can_refund()` (error `CannotRefund`) and
`escrow.buyer == buyer.key()` (error `UnauthorizedRefund`) checked in
order, then the handler body: the pause gate is commented out in the
source; `refund_amount = escrow.amount + fee` is an unchecked u64
addition (wrapping, modelled `% 2^64`); the whole amount returns to the
buyer and `settled := true`. -/
def refund (c : Config) (now : Int) (caller : Pubkey) (st : RefundState) :
    Except Err RefundState :=
  if st.escrow.can_refund now then
    if st.escrow.buyer = caller then
      let fee := c.calculate_fee st.escrow.amount
      let refund_amount := (st.escrow.amount + fee) % U64_MOD
      match token_transfer st.vault st.buyer_balance refund_amount with
      | .error e => .error e
      | .ok p =>
        .ok { escrow := { st.escrow with settled := true }, vault := p.1,
              buyer_balance := p.2 }
    else .error .UnauthorizedRefund
  else .error .CannotRefund

/-- The accounts created/written by a `Lock` call: the new escrow record,
the newly created vault balance, and the buyer's remaining balance. -/
structure LockResult where
  escrow : Escrow
  vault : Nat
  buyer_balance : Nat
deriving Repr, DecidableEq

/-- `lock.rs` line 109: `let total_amount = amount + fee;` — an unchecked
u64 addition, wrapping modulo 2^64. -/
def lock_total_amount (c : Config) (amount : Nat) : Nat :=
  (amount + c.calculate_fee amount) % U64_MOD

/-- `lock.rs` `lock`, with the Anchor account constraint
`buyer_token_account.amount >= amount` (error `InsufficientFunds`)
checked before the handler body, then: pause gate, deadline-offset
validation `0 < offset <= 600`, `deadline = now + offset`,
`nonce = now as u64` (wrapping cast), ask-signature check, price cap
check, and the transfer of `total_amount` from the buyer into the
newly created (empty) vault.  The escrow record is created with
`settled = false`. -/
def lock (c : Config) (now : Int) (buyer seller : Pubkey) (buyer_balance : Nat)
    (asset_id amount price_max : Nat) (ask_signature : Sig) (deadline_offset : Int) :
    Except Err LockResult :=
  if buyer_balance < amount then .error .InsufficientFunds
  else if c.paused then .error .ContractPaused
  else if ¬(deadline_offset > 0 ∧ deadline_offset ≤ 600) then .error .InvalidDeadline
  else
    let deadline := now + deadline_offset
    let nonce := (now % ((U64_MOD : Nat) : Int)).toNat
    if verify_signature ask_signature (ask_message asset_id seller amount deadline nonce) seller
    then
      if amount > price_max then .error .PriceExceedsMaximum
      else
        let total_amount := lock_total_amount c amount
        match token_transfer buyer_balance 0 total_amount with
        | .error e => .error e
        | .ok p =>
          .ok { escrow := { buyer := buyer, seller := seller, asset_id := asset_id,
                            amount := amount, deadline := deadline, settled := false,
                            nonce := nonce },
                vault := p.2, buyer_balance := p.1 }
    else .error .InvalidAskSignature

/-- `admin.rs` `pause`, with the Anchor constraint
`guardian.key() == config.guardian` (error `UnauthorizedGuardian`). -/
def pause (c : Config) (caller : Pubkey) : Except Err Config :=
  if caller = c.guardian then .ok { c with paused := true }
  else .error .UnauthorizedGuardian

/-- `admin.rs` `unpause`, with the Anchor constraint
`guardian.key() == config.guardian` (error `UnauthorizedGuardian`). -/
def unpause (c : Config) (caller : Pubkey) : Except Err Config :=
  if caller = c.guardian then .ok { c with paused := false }
  else .error .UnauthorizedGuardian

/-- `admin.rs` `update_oracles`, with the Anchor constraint
`admin.key() == config.admin` (error `UnauthorizedAdmin`). -/
def update_oracles (c : Config) (caller : Pubkey) (new_oracles : List Pubkey) :
    Except Err Config :=
  if caller = c.admin then .ok { c with oracle_pubkeys := new_oracles }
  else .error .UnauthorizedAdmin

/-! Concrete instances used as witnesses and failing inputs. -/

/-- A config as produced by `initialize`: `fee_bps = 50`, unpaused. -/
def cfgDefault : Config :=
  { oracle_pubkeys := [101, 102, 103], paused := false, guardian := 7, admin := 8,
    fee_bps := 50, fee_recipient := 9 }

/-- A non-zero 64-byte signature. -/
def sigOne : Sig := 1 :: List.replicate 63 0

/-- A second non-zero 64-byte signature. -/
def sigTwo : Sig := 2 :: List.replicate 63 0

/-- The all-zero 64-byte signature. -/
def sigZero : Sig := List.replicate 64 0

/-- A live escrow: amount 1000, deadline 300, not settled. -/
def escrowEx : Escrow :=
  { buyer := 10, seller := 11, asset_id := 42, amount := 1000, deadline := 300,
    settled := false, nonce := 0 }

/-- Settle-call accounts for `escrowEx` right after its Lock:
vault holds `1000 + fee(1000) = 1005`. -/
def settleStEx : SettleState :=
  { escrow := escrowEx, vault := 1005, seller_balance := 0, fee_recipient_balance := 0 }

/-- Refund-call accounts for `escrowEx` right after its Lock. -/
def refundStEx : RefundState :=
  { escrow := escrowEx, vault := 1005, buyer_balance := 0 }

/-! Helper lemmas shared by several claim theorems. -/

/-- A transfer with sufficient source balance and no destination overflow
debits the source and credits the destination. -/
theorem token_transfer_ok (src dst amt : Nat) (h1 : amt ≤ src) (h2 : dst + amt < U64_MOD) :
    token_transfer src dst amt = .ok (src - amt, dst + amt) := by
  unfold token_transfer
  rw [if_neg (by omega), if_neg (by omega)]

/-- A failed transfer reports one of the two token-program errors. -/
theorem token_transfer_error_shape (src dst amt : Nat) (e : Err)
    (h : token_transfer src dst amt = .error e) :
    e = .TokenInsufficientFunds ∨ e = .TokenOverflow := by
  unfold token_transfer at h
  by_cases h1 : amt > src
  · rw [if_pos h1] at h
    exact Or.inl ((Except.error.inj h).symm)
  · rw [if_neg h1] at h
    by_cases h2 : U64_MOD ≤ dst + amt
    · rw [if_pos h2] at h
      exact Or.inr ((Except.error.inj h).symm)
    · rw [if_neg h2] at h
      exact absurd h (by simp)

/-- In the u64/u16 range the wide fee computation is the exact
mathematical floor. -/
theorem calculate_fee_eq (c : Config) (amount : Nat)
    (hamt : amount < U64_MOD) (hbps : c.fee_bps ≤ 10000) :
    c.calculate_fee amount = amount * c.fee_bps / 10000 := by
  unfold Config.calculate_fee
  have h2 : U64_MOD * 10000 < U128_MOD := by unfold U64_MOD U128_MOD; norm_num
  have h1 : amount * c.fee_bps < U128_MOD :=
    lt_of_le_of_lt (Nat.mul_le_mul hamt.le hbps) h2
  rw [Nat.mod_eq_of_lt h1]
  have h3 : amount * c.fee_bps / 10000 ≤ amount := by
    have h4 : amount * c.fee_bps / 10000 ≤ amount * 10000 / 10000 :=
      Nat.div_le_div_right (Nat.mul_le_mul_left amount hbps)
    simpa [Nat.mul_div_cancel amount (by norm_num : (0:Nat) < 10000)] using h4
  exact Nat.mod_eq_of_lt (lt_of_le_of_lt h3 hamt)

/-- A lock whose preconditions all hold deposits `amount + fee` into the
fresh vault and creates an unsettled escrow. -/
theorem lock_ok_of (c : Config) (now : Int) (buyer seller : Pubkey)
    (bal aid amount pmax : Nat) (sig : Sig) (off : Int)
    (hnp : c.paused = false)
    (hbal : amount ≤ bal)
    (hoff : 0 < off ∧ off ≤ 600)
    (hsig : sig.all (fun b => b == 0) = false)
    (hpx : amount ≤ pmax)
    (htot : lock_total_amount c amount ≤ bal)
    (hv : lock_total_amount c amount < U64_MOD) :
    lock c now buyer seller bal aid amount pmax sig off =
      .ok { escrow := { buyer := buyer, seller := seller, asset_id := aid, amount := amount,
                        deadline := now + off, settled := false,
                        nonce := (now % ((U64_MOD : Nat) : Int)).toNat },
            vault := lock_total_amount c amount,
            buyer_balance := bal - lock_total_amount c amount } := by
  unfold lock
  rw [if_neg (Nat.not_lt.mpr hbal), hnp]
  rw [if_neg (by simp)]
  rw [if_neg (not_not_intro hoff)]
  have hver : verify_signature sig
      (ask_message aid seller amount (now + off) ((now % ((U64_MOD : Nat) : Int)).toNat))
      seller = true := by
    unfold verify_signature
    rw [hsig]
    simp
  rw [if_pos hver, if_neg (Nat.not_lt.mpr hpx)]
  simp only [token_transfer_ok bal 0 (lock_total_amount c amount) htot (by omega),
    Nat.zero_add]

/-- A settle whose preconditions all hold empties the vault into the
seller and fee-recipient balances and marks the escrow settled. -/
theorem settle_ok_of (c : Config) (now : Int) (st : SettleState) (sigs : List Sig)
    (hcs : st.escrow.can_settle now = true)
    (hnp : c.paused = false)
    (hlen : 2 ≤ sigs.length)
    (hq : 2 ≤ count_valid_signatures c (settlement_message st.escrow) sigs)
    (hvault : st.vault = st.escrow.amount + c.calculate_fee st.escrow.amount)
    (hs : st.seller_balance + st.escrow.amount < U64_MOD)
    (hf : st.fee_recipient_balance + c.calculate_fee st.escrow.amount < U64_MOD) :
    settle c now st sigs =
      .ok { escrow := { st.escrow with settled := true }, vault := 0,
            seller_balance := st.seller_balance + st.escrow.amount,
            fee_recipient_balance :=
              st.fee_recipient_balance + c.calculate_fee st.escrow.amount } := by
  unfold settle
  rw [hcs, if_pos rfl, hnp]
  rw [if_neg (by simp)]
  rw [if_neg (Nat.not_lt.mpr hlen)]
  rw [if_neg (Nat.not_lt.mpr hq)]
  rw [hvault]
  simp only [token_transfer_ok (st.escrow.amount + c.calculate_fee st.escrow.amount)
      st.seller_balance st.escrow.amount (Nat.le_add_right _ _) hs,
    Nat.add_sub_cancel_left]
  by_cases hfee : 0 < c.calculate_fee st.escrow.amount
  · rw [if_pos hfee]
    simp only [token_transfer_ok (c.calculate_fee st.escrow.amount) st.fee_recipient_balance
        (c.calculate_fee st.escrow.amount) le_rfl hf,
      Nat.sub_self]
  · rw [if_neg hfee]
    have hz : c.calculate_fee st.escrow.amount = 0 := by omega
    simp [hz]

/-- A refund whose preconditions all hold returns `amount + fee` to the
buyer and marks the escrow settled. -/
theorem refund_ok_of (c : Config) (now : Int) (caller : Pubkey) (st : RefundState)
    (hcr : st.escrow.can_refund now = true)
    (hb : st.escrow.buyer = caller)
    (hamt : st.escrow.amount + c.calculate_fee st.escrow.amount < U64_MOD)
    (hvault : st.vault = st.escrow.amount + c.calculate_fee st.escrow.amount)
    (hdst : st.buyer_balance + st.vault < U64_MOD) :
    refund c now caller st =
      .ok { escrow := { st.escrow with settled := true }, vault := 0,
            buyer_balance := st.buyer_balance + st.vault } := by
  unfold refund
  rw [hcr, if_pos rfl, if_pos hb]
  have hmod : (st.escrow.amount + c.calculate_fee st.escrow.amount) % U64_MOD
      = st.vault := by
    rw [Nat.mod_eq_of_lt hamt, hvault]
  simp only [hmod, token_transfer_ok st.vault st.buyer_balance st.vault le_rfl hdst,
    Nat.sub_self]

/-- A paused config, as after a guardian `pause` call on `cfgDefault`. -/
def cfgPaused : Config := { cfgDefault with paused := true }

/-- A settled escrow record, as after a successful settle or refund. -/
def escrowSettled : Escrow := { escrowEx with settled := true }

/-- In-range deadline offsets never produce the `InvalidDeadline` error:
that error arises only at the deadline-offset check itself. -/
theorem lock_in_range_ne_invalid_deadline (c : Config) (now : Int) (buyer seller : Pubkey)
    (bal aid amount pmax : Nat) (sig : Sig) (off : Int)
    (hoff : 0 < off ∧ off ≤ 600) :
    lock c now buyer seller bal aid amount pmax sig off ≠ .error .InvalidDeadline := by
  intro h
  simp only [lock] at h
  split at h
  · simp at h
  · split at h
    · simp at h
    · split at h
      · split at h
        · simp at h
        · split at h
          · next e heq =>
            rcases token_transfer_error_shape _ _ _ e heq with h1 | h1 <;>
              rw [h1] at h <;> simp at h
          · simp at h
      · simp at h

/-! The claim theorems. -/

/-- Claim C1 (code bug evidence): the quorum loop in `settle` does not
track which oracle key a signature was credited to, so a submission
consisting of one valid (non-zero) oracle signature plus an exact
duplicate of that same signature is counted as 2 valid signatures, the
quorum check passes, and the settle succeeds — contradicting the claim
that such a submission must fail the quorum check. -/
theorem settle_accepts_duplicate_oracle_signature :
    count_valid_signatures cfgDefault (settlement_message escrowEx) [sigOne, sigOne] = 2 ∧
    settle cfgDefault 0 settleStEx [sigOne, sigOne] =
      .ok { escrow := { escrowEx with settled := true }, vault := 0,
            seller_balance := 1000, fee_recipient_balance := 5 } :=
  ⟨by decide, by rfl⟩

/-- Claim C2 (counterexample): with `fee_bps = 50`, a buyer balance of
1000 and `amount = 1000`, the balance is below `amount + fee = 1005`,
yet the lock does not fail with the insufficient-funds error: the
balance constraint only requires `balance ≥ amount`, and the failure
surfaces later as a token-program transfer error. -/
theorem lock_fee_margin_counterexample :
    1000 < 1000 + cfgDefault.calculate_fee 1000 ∧
    (∃ e : Err, lock cfgDefault 0 10 11 1000 42 1000 1000 sigOne 300 = .error e ∧
      e ≠ .InsufficientFunds) :=
  ⟨by decide, .TokenInsufficientFunds, by rfl, by decide⟩

/-- Claim C2 (amended): Lock requires the buyer's custody balance to be
at least `amount` (not `amount + fee`) as a precondition, checked before
any transfer; if the buyer's balance is below `amount`, Lock fails with
the insufficient-funds error and moves no funds. -/
theorem lock_insufficient_funds_checks_amount (c : Config) (now : Int)
    (buyer seller : Pubkey) (bal aid amount pmax : Nat) (sig : Sig) (off : Int)
    (h : bal < amount) :
    lock c now buyer seller bal aid amount pmax sig off = .error .InsufficientFunds := by
  unfold lock
  rw [if_pos h]

/-- Claim C2 witness: balance 5 < amount 1000 fails with
`InsufficientFunds`. -/
theorem lock_insufficient_funds_checks_amount_witness :
    lock cfgDefault 0 10 11 5 42 1000 1000 sigOne 300 = .error .InsufficientFunds :=
  lock_insufficient_funds_checks_amount cfgDefault 0 10 11 5 42 1000 1000 sigOne 300
    (by decide)

/-- Claim C3: `verify_signature` returns `false` exactly when the
signature is all zeros (for every message and claimed identity), and a
Lock call whose ask signature is all zeros fails with the ask-signature
error before any transfer. -/
theorem verify_signature_stub_and_zero_ask_rejected
    (sig : Sig) (msg : Message) (pk : Pubkey)
    (c : Config) (now : Int) (buyer seller : Pubkey)
    (bal aid amount pmax : Nat) (off : Int)
    (hnp : c.paused = false) (hbal : amount ≤ bal) (hoff : 0 < off ∧ off ≤ 600) :
    (verify_signature sig msg pk = false ↔ sig.all (fun b => b == 0) = true) ∧
    lock c now buyer seller bal aid amount pmax sigZero off = .error .InvalidAskSignature := by
  constructor
  · unfold verify_signature
    by_cases h : sig.all (fun b => b == 0) = true
    · simp [h]
    · simp [h]
  · unfold lock
    rw [if_neg (Nat.not_lt.mpr hbal), hnp]
    rw [if_neg (by simp)]
    rw [if_neg (not_not_intro hoff)]
    have hz : verify_signature sigZero
        (ask_message aid seller amount (now + off) ((now % ((U64_MOD : Nat) : Int)).toNat))
        seller = false := by
      unfold verify_signature sigZero
      rw [if_pos (by decide)]
    simp [hz]

/-- Claim C3 witness: a non-zero signature verifies, the all-zero one
does not, and an all-zero ask signature makes the lock fail with the
ask-signature error. -/
theorem verify_signature_stub_and_zero_ask_rejected_witness :
    (verify_signature sigOne [] 0 = false ↔ sigOne.all (fun b => b == 0) = true) ∧
    lock cfgDefault 0 10 11 2000 42 1000 1000 sigZero 300 = .error .InvalidAskSignature :=
  verify_signature_stub_and_zero_ask_rejected sigOne [] 0 cfgDefault 0 10 11 2000 42
    1000 1000 300 rfl (by decide) (by decide)

/-- Claim C4: a Settle whose preconditions hold (not paused, can_settle,
quorum met) transfers `amount` to the seller and `fee` to the fee
recipient, sets `settled`, and leaves the vault at exactly 0 given that
the vault held exactly `amount + fee`. -/
theorem settle_success_pays_seller_and_fee (c : Config) (now : Int) (st : SettleState)
    (sigs : List Sig)
    (hcs : st.escrow.can_settle now = true)
    (hnp : c.paused = false)
    (hlen : 2 ≤ sigs.length)
    (hq : 2 ≤ count_valid_signatures c (settlement_message st.escrow) sigs)
    (hvault : st.vault = st.escrow.amount + c.calculate_fee st.escrow.amount)
    (hs : st.seller_balance + st.escrow.amount < U64_MOD)
    (hf : st.fee_recipient_balance + c.calculate_fee st.escrow.amount < U64_MOD) :
    settle c now st sigs =
      .ok { escrow := { st.escrow with settled := true }, vault := 0,
            seller_balance := st.seller_balance + st.escrow.amount,
            fee_recipient_balance :=
              st.fee_recipient_balance + c.calculate_fee st.escrow.amount } :=
  settle_ok_of c now st sigs hcs hnp hlen hq hvault hs hf

/-- Claim C4 witness: settling `escrowEx` with two distinct valid oracle
signatures pays the seller 1000 and the fee recipient 5 and empties the
vault. -/
theorem settle_success_pays_seller_and_fee_witness :
    settle cfgDefault 0 settleStEx [sigOne, sigTwo] =
      .ok { escrow := { settleStEx.escrow with settled := true }, vault := 0,
            seller_balance := settleStEx.seller_balance + settleStEx.escrow.amount,
            fee_recipient_balance := settleStEx.fee_recipient_balance
              + cfgDefault.calculate_fee settleStEx.escrow.amount } :=
  settle_success_pays_seller_and_fee cfgDefault 0 settleStEx [sigOne, sigTwo]
    (by decide) rfl (by decide) (by decide) (by decide) (by decide) (by decide)

/-- Claim C5: once `settled` is true, `can_settle` and `can_refund` are
both false at every time, and every subsequent Settle or Refund on that
escrow fails its state precondition. -/
theorem settled_excludes_settle_and_refund (e : Escrow) (h : e.settled = true) :
    (∀ now : Int, e.can_settle now = false ∧ e.can_refund now = false) ∧
    (∀ (c : Config) (now : Int) (vault sb fb : Nat) (sigs : List Sig),
      settle c now { escrow := e, vault := vault, seller_balance := sb,
                     fee_recipient_balance := fb } sigs = .error .CannotSettle) ∧
    (∀ (c : Config) (now : Int) (caller : Pubkey) (vault bb : Nat),
      refund c now caller { escrow := e, vault := vault, buyer_balance := bb } =
        .error .CannotRefund) := by
  have hcs : ∀ now : Int, e.can_settle now = false := fun now => by
    simp [Escrow.can_settle, h]
  have hcr : ∀ now : Int, e.can_refund now = false := fun now => by
    simp [Escrow.can_refund, h]
  refine ⟨fun now => ⟨hcs now, hcr now⟩, ?_, ?_⟩
  · intro c now vault sb fb sigs
    simp [settle, hcs now]
  · intro c now caller vault bb
    simp [refund, hcr now]

/-- Claim C5 witness: on a settled escrow both predicates are false and
both transitions fail with their state errors. -/
theorem settled_excludes_settle_and_refund_witness :
    (escrowSettled.can_settle 0 = false ∧ escrowSettled.can_refund 400 = false) ∧
    settle cfgDefault 0 { escrow := escrowSettled, vault := 1005, seller_balance := 0,
                          fee_recipient_balance := 0 } [sigOne, sigTwo]
      = .error .CannotSettle ∧
    refund cfgDefault 400 10 { escrow := escrowSettled, vault := 1005, buyer_balance := 0 }
      = .error .CannotRefund :=
  ⟨⟨((settled_excludes_settle_and_refund escrowSettled rfl).1 0).1,
    ((settled_excludes_settle_and_refund escrowSettled rfl).1 400).2⟩,
   (settled_excludes_settle_and_refund escrowSettled rfl).2.1 cfgDefault 0 1005 0 0
     [sigOne, sigTwo],
   (settled_excludes_settle_and_refund escrowSettled rfl).2.2 cfgDefault 400 10 1005 0⟩

/-- Claim C6: for every amount below 2^64 and every `fee_bps` in
[0, 10000], `calculate_fee` is the exact mathematical floor of
`amount * fee_bps / 10000` — the 128-bit intermediate product and the
final u64 cast never truncate. -/
theorem calculate_fee_floor_no_overflow (c : Config) (amount : Nat)
    (hamt : amount ≤ 2 ^ 64 - 1) (hbps : c.fee_bps ≤ 10000) :
    c.calculate_fee amount = amount * c.fee_bps / 10000 :=
  calculate_fee_eq c amount (lt_of_le_of_lt hamt (by norm_num [U64_MOD])) hbps

/-- Claim C6 witness: the fee on 1000 at 50 bps is the exact floor. -/
theorem calculate_fee_floor_no_overflow_witness :
    cfgDefault.calculate_fee 1000 = 1000 * cfgDefault.fee_bps / 10000 :=
  calculate_fee_floor_no_overflow cfgDefault 1000 (by decide) (by decide)

/-- Claim C7: on an unsettled escrow, Refund at or before the deadline
fails with the state error; after the deadline, a Refund by the escrow's
registered buyer returns `amount + fee` from the vault to the buyer and
sets `settled`. -/
theorem refund_deadline_gating (c : Config) (now : Int) (caller : Pubkey)
    (st : RefundState) (hns : st.escrow.settled = false) :
    (now ≤ st.escrow.deadline → refund c now caller st = .error .CannotRefund) ∧
    (st.escrow.deadline < now → st.escrow.buyer = caller →
      st.escrow.amount + c.calculate_fee st.escrow.amount < U64_MOD →
      st.vault = st.escrow.amount + c.calculate_fee st.escrow.amount →
      st.buyer_balance + st.vault < U64_MOD →
      refund c now caller st =
        .ok { escrow := { st.escrow with settled := true }, vault := 0,
              buyer_balance := st.buyer_balance + st.vault }) := by
  constructor
  · intro hle
    have hcr : st.escrow.can_refund now = false := by
      simp only [Escrow.can_refund, Escrow.is_expired, hns]
      simp
      omega
    simp [refund, hcr]
  · intro hgt hb hamt hvault hdst
    refine refund_ok_of c now caller st ?_ hb hamt hvault hdst
    simp only [Escrow.can_refund, Escrow.is_expired, hns]
    simp
    omega

/-- Claim C7 witness: with deadline 300, refund at time 100 fails with
the state error; refund at time 400 by the buyer returns the whole
vault (1005 = 1000 + 5) and settles the escrow. -/
theorem refund_deadline_gating_witness :
    refund cfgDefault 100 10 refundStEx = .error .CannotRefund ∧
    refund cfgDefault 400 10 refundStEx =
      .ok { escrow := { refundStEx.escrow with settled := true }, vault := 0,
            buyer_balance := refundStEx.buyer_balance + refundStEx.vault } :=
  ⟨(refund_deadline_gating cfgDefault 100 10 refundStEx rfl).1 (by decide),
   (refund_deadline_gating cfgDefault 400 10 refundStEx rfl).2 (by decide) rfl
     (by decide) (by decide) (by decide)⟩

/-- Claim C8: with the pause flag set, Lock and Settle fail with the
paused error; Refund ignores the pause flag entirely and still succeeds
under its own preconditions; after Unpause, Lock and Settle succeed
again under their other preconditions. -/
theorem pause_gates_lock_settle_not_refund (c : Config) (now : Int)
    (buyer seller : Pubkey) (bal aid amount pmax : Nat) (sig : Sig) (off : Int)
    (st : SettleState) (sigs : List Sig) (caller : Pubkey) (rst : RefundState)
    (hp : c.paused = true) :
    (amount ≤ bal →
      lock c now buyer seller bal aid amount pmax sig off = .error .ContractPaused) ∧
    (st.escrow.can_settle now = true →
      settle c now st sigs = .error .ContractPaused) ∧
    (∀ b : Bool, refund { c with paused := b } now caller rst = refund c now caller rst) ∧
    (rst.escrow.can_refund now = true → rst.escrow.buyer = caller →
      rst.escrow.amount + c.calculate_fee rst.escrow.amount < U64_MOD →
      rst.vault = rst.escrow.amount + c.calculate_fee rst.escrow.amount →
      rst.buyer_balance + rst.vault < U64_MOD →
      refund c now caller rst =
        .ok { escrow := { rst.escrow with settled := true }, vault := 0,
              buyer_balance := rst.buyer_balance + rst.vault }) ∧
    (unpause c c.guardian = .ok { c with paused := false }) ∧
    (amount ≤ bal → 0 < off → off ≤ 600 → sig.all (fun b => b == 0) = false →
      amount ≤ pmax → lock_total_amount c amount ≤ bal →
      lock_total_amount c amount < U64_MOD →
      lock { c with paused := false } now buyer seller bal aid amount pmax sig off =
        .ok { escrow := { buyer := buyer, seller := seller, asset_id := aid,
                          amount := amount, deadline := now + off, settled := false,
                          nonce := (now % ((U64_MOD : Nat) : Int)).toNat },
              vault := lock_total_amount c amount,
              buyer_balance := bal - lock_total_amount c amount }) ∧
    (st.escrow.can_settle now = true → 2 ≤ sigs.length →
      2 ≤ count_valid_signatures c (settlement_message st.escrow) sigs →
      st.vault = st.escrow.amount + c.calculate_fee st.escrow.amount →
      st.seller_balance + st.escrow.amount < U64_MOD →
      st.fee_recipient_balance + c.calculate_fee st.escrow.amount < U64_MOD →
      settle { c with paused := false } now st sigs =
        .ok { escrow := { st.escrow with settled := true }, vault := 0,
              seller_balance := st.seller_balance + st.escrow.amount,
              fee_recipient_balance :=
                st.fee_recipient_balance + c.calculate_fee st.escrow.amount }) := by
  refine ⟨?_, ?_, ?_, ?_, ?_, ?_, ?_⟩
  · intro hbal
    unfold lock
    rw [if_neg (Nat.not_lt.mpr hbal), hp, if_pos rfl]
  · intro hcs
    unfold settle
    rw [hcs, if_pos rfl, hp, if_pos rfl]
  · intro b
    rfl
  · intro hcr hb hamt hvault hdst
    exact refund_ok_of c now caller rst hcr hb hamt hvault hdst
  · unfold unpause
    rw [if_pos rfl]
  · intro hbal h1 h2 hsig hpx htot hv
    exact lock_ok_of { c with paused := false } now buyer seller bal aid amount pmax sig
      off rfl hbal ⟨h1, h2⟩ hsig hpx htot hv
  · intro hcs hlen hq hvault hs hf
    exact settle_ok_of { c with paused := false } now st sigs hcs rfl hlen hq hvault hs hf

/-- Claim C8 witness: with `cfgPaused`, Lock and Settle fail with
`ContractPaused`, Refund still succeeds, Unpause clears the flag, and
Lock and Settle succeed on the unpaused config. -/
theorem pause_gates_lock_settle_not_refund_witness :
    lock cfgPaused 0 10 11 2000 42 1000 1000 sigOne 300 = .error .ContractPaused ∧
    settle cfgPaused 0 settleStEx [sigOne, sigTwo] = .error .ContractPaused ∧
    refund cfgPaused 400 10 refundStEx =
      .ok { escrow := { refundStEx.escrow with settled := true }, vault := 0,
            buyer_balance := refundStEx.buyer_balance + refundStEx.vault } ∧
    unpause cfgPaused cfgPaused.guardian = .ok { cfgPaused with paused := false } ∧
    lock { cfgPaused with paused := false } 0 10 11 2000 42 1000 1000 sigOne 300 =
      .ok { escrow := { buyer := 10, seller := 11, asset_id := 42, amount := 1000,
                        deadline := 0 + 300, settled := false,
                        nonce := (((0 : Int) % ((U64_MOD : Nat) : Int)).toNat) },
            vault := lock_total_amount cfgPaused 1000,
            buyer_balance := 2000 - lock_total_amount cfgPaused 1000 } ∧
    settle { cfgPaused with paused := false } 0 settleStEx [sigOne, sigTwo] =
      .ok { escrow := { settleStEx.escrow with settled := true }, vault := 0,
            seller_balance := settleStEx.seller_balance + settleStEx.escrow.amount,
            fee_recipient_balance := settleStEx.fee_recipient_balance
              + cfgPaused.calculate_fee settleStEx.escrow.amount } := by
  have h := pause_gates_lock_settle_not_refund cfgPaused 0 10 11 2000 42 1000 1000
    sigOne 300 settleStEx [sigOne, sigTwo] 10 refundStEx rfl
  have hr := pause_gates_lock_settle_not_refund cfgPaused 400 10 11 2000 42 1000 1000
    sigOne 300 settleStEx [sigOne, sigTwo] 10 refundStEx rfl
  exact ⟨h.1 (by decide), h.2.1 (by decide),
    hr.2.2.2.1 (by decide) rfl (by decide) (by decide) (by decide),
    h.2.2.2.2.1,
    h.2.2.2.2.2.1 (by decide) (by decide) (by decide) (by decide) (by decide)
      (by decide) (by decide),
    h.2.2.2.2.2.2 (by decide) (by decide) (by decide) (by decide) (by decide)
      (by decide)⟩

/-- Claim C9: with the earlier checks passing, Lock fails with the
invalid-deadline error exactly when `deadline_offset` lies outside
(0, 600]; inside the range the invalid-deadline error can never be the
result. -/
theorem lock_deadline_validation (c : Config) (now : Int) (buyer seller : Pubkey)
    (bal aid amount pmax : Nat) (sig : Sig) (off : Int)
    (hnp : c.paused = false) (hbal : amount ≤ bal) :
    (¬(0 < off ∧ off ≤ 600) →
      lock c now buyer seller bal aid amount pmax sig off = .error .InvalidDeadline) ∧
    ((0 < off ∧ off ≤ 600) →
      lock c now buyer seller bal aid amount pmax sig off ≠ .error .InvalidDeadline) := by
  constructor
  · intro hout
    unfold lock
    rw [if_neg (Nat.not_lt.mpr hbal), hnp]
    rw [if_neg (by simp)]
    rw [if_pos hout]
  · intro hoff
    exact lock_in_range_ne_invalid_deadline c now buyer seller bal aid amount pmax sig
      off hoff

/-- Claim C9 witness: offset 601 fails, offset 0 fails, offset 600
passes the deadline check. -/
theorem lock_deadline_validation_witness :
    lock cfgDefault 0 10 11 2000 42 1000 1000 sigOne 601 = .error .InvalidDeadline ∧
    lock cfgDefault 0 10 11 2000 42 1000 1000 sigOne 0 = .error .InvalidDeadline ∧
    lock cfgDefault 0 10 11 2000 42 1000 1000 sigOne 600 ≠ .error .InvalidDeadline :=
  ⟨(lock_deadline_validation cfgDefault 0 10 11 2000 42 1000 1000 sigOne 601 rfl
      (by decide)).1 (by decide),
   (lock_deadline_validation cfgDefault 0 10 11 2000 42 1000 1000 sigOne 0 rfl
      (by decide)).1 (by decide),
   (lock_deadline_validation cfgDefault 0 10 11 2000 42 1000 1000 sigOne 600 rfl
      (by decide)).2 (by decide)⟩

/-- Claim C10: with the default `fee_bps = 50` there is an amount within
u64 range (namely 2^64 - 1) whose fee is computed exactly and is
positive, yet whose deposit total `amount + fee` exceeds the u64
maximum, so the unchecked u64 addition in `lock` wraps and the computed
total differs from the mathematical sum. -/
theorem lock_total_amount_overflows :
    ∃ amount : Nat, amount ≤ 2 ^ 64 - 1 ∧
      cfgDefault.calculate_fee amount = amount * cfgDefault.fee_bps / 10000 ∧
      2 ^ 64 ≤ amount + cfgDefault.calculate_fee amount ∧
      lock_total_amount cfgDefault amount ≠ amount + cfgDefault.calculate_fee amount :=
  ⟨2 ^ 64 - 1, by decide, by decide, by decide, by decide⟩

end TradeEscrow
